import Mathlib

/-!
# Ledger transfer (practice4) and product query builder (go-practice 5)

A shallow embedding of `TransferBalance` from `practice4/main.go` and of the
query-building part of `handleGetProducts` from `go-practice 5/main.go`.

Modelling decisions for `practice4`:

* the `users` table is a list of rows; `Balance` is a `float64` in the source and
  is taken here as an exact number (an integer amount of minor units);
* a transaction works on its own copy of the rows, which becomes the committed
  table only when `Commit` succeeds; a `Commit` that fails ends the transaction and
  discards that copy (the store's guarantee for a failed commit);
* every store call (`Beginx`, the two `Get`s, the two `Exec`s, `Commit`) may fail;
  which ones do is given by a `Faults` record;
* the local variable `err`, which the deferred closure reads, is tracked
  separately from the value the function returns.
-/

namespace Practice4

/-- The `User` struct: one row of table `users`. -/
structure User where
  ID : Int
  Name : String
  Email : String
  Balance : Int
  deriving DecidableEq, Repr

/-- Life cycle of the unit of work behind a `*sqlx.Tx`. -/
inductive TxState where
  | opened
  | committed
  | rolledBack
  deriving DecidableEq, Repr

/-- Errors of the store layer, as far as `TransferBalance` can tell them apart. -/
inductive SqlErr where
  | errNoRows
  | fault
  deriving DecidableEq, Repr

/-- Which store calls of one `TransferBalance` run fail with a storage fault. -/
structure Faults where
  beginx : Bool
  getSender : Bool
  getReceiver : Bool
  debit : Bool
  credit : Bool
  commit : Bool
  deriving DecidableEq, Repr

/-- A store on which no call fails. -/
def noFaults : Faults :=
  { beginx := false, getSender := false, getReceiver := false,
    debit := false, credit := false, commit := false }

/-- The errors `TransferBalance` returns, one constructor per `fmt.Errorf` call. -/
inductive TransferError where
  | cannotStartTransaction
  | senderNotFound
  | lowMoney (balance need : Int)
  | userNotFound
  | cannotTakeMoney
  | cannotCredit
  | commitError
  deriving DecidableEq, Repr

/-- Rows selected by `SELECT balance FROM users WHERE id = $1`: the first match. -/
def selectBalance (rows : List User) (id : Int) : Option Int :=
  (rows.find? (fun u => u.ID == id)).map (fun u => u.Balance)

/-- Value of `SELECT EXISTS(SELECT 1 FROM users WHERE id = $1)`. -/
def selectExists (rows : List User) (id : Int) : Bool :=
  rows.any (fun u => u.ID == id)

/-- Rows after `UPDATE users SET balance = g(balance) WHERE id = $2`. -/
def updateRows (g : Int → Int) (id : Int) (rows : List User) : List User :=
  rows.map (fun u => if u.ID == id then { u with Balance := g u.Balance } else u)

/-- Result of `tx.Get` scanning one value: a fault, `sql.ErrNoRows`, or the value. -/
def txGet {α : Type} (fail : Bool) (row : Option α) : Except SqlErr α :=
  if fail then .error .fault
  else match row with
    | none => .error .errNoRows
    | some v => .ok v

/-- Result of `tx.Exec` for an `UPDATE`: a fault, or the updated rows. -/
def txExec (fail : Bool) (rows : List User) : Except SqlErr (List User) :=
  if fail then .error .fault else .ok rows

/-- Effect of `tx.Rollback()`: an open transaction is rolled back; on a finished one
the call is a no-op (it returns `sql.ErrTxDone`, which the caller ignores). -/
def Rollback (s : TxState) : TxState :=
  match s with
  | .opened => .rolledBack
  | s => s

/-- What one call leaves behind: the returned error (`none` is `nil`), the committed
rows of `users`, and the state of the transaction (`none` when `Beginx` failed). -/
structure Outcome where
  ret : Option TransferError
  users : List User
  tx : Option TxState
  deriving DecidableEq, Repr

/-- The deferred closure `func() { if err != nil { tx.Rollback() } }`, run at every
return after `Beginx` succeeded. Its argument is the local variable `err`. -/
def deferred (err : Option SqlErr) (s : TxState) : TxState :=
  if err.isSome then Rollback s else s

/-- A `return fmt.Errorf(...)` after `Beginx` succeeded: the function's result is
unnamed, so the returned error `e` is not stored in `err`; the deferred closure
sees `err` as the last store call left it. Nothing was committed. -/
def returnError (e : TransferError) (err : Option SqlErr) (db : List User) : Outcome :=
  { ret := some e, users := db, tx := some (deferred err .opened) }

/-- The function `TransferBalance(db, fromID, toID, amount)`. -/
def TransferBalance (f : Faults) (db : List User) (fromID toID : Int) (amount : Int) :
    Outcome :=
  -- tx, err := db.Beginx()
  if f.beginx then
    { ret := some .cannotStartTransaction, users := db, tx := none }
  else
    -- err = tx.Get(&senderBalance, ...)
    match txGet f.getSender (selectBalance db fromID) with
    | .error e => returnError .senderNotFound (some e) db
    | .ok senderBalance =>
      if senderBalance < amount then
        returnError (.lowMoney senderBalance amount) none db
      else
        -- err = tx.Get(&receiverExists, ...)
        match txGet f.getReceiver (some (selectExists db toID)) with
        | .error e => returnError .userNotFound (some e) db
        | .ok receiverExists =>
          if !receiverExists then
            returnError .userNotFound none db
          else
            -- _, err = tx.Exec(UPDATE ... balance - $1 ...)
            match txExec f.debit (updateRows (fun b => b - amount) fromID db) with
            | .error e => returnError .cannotTakeMoney (some e) db
            | .ok rows1 =>
              -- _, err = tx.Exec(UPDATE ... balance + $1 ...)
              match txExec f.credit (updateRows (fun b => b + amount) toID rows1) with
              | .error e => returnError .cannotCredit (some e) db
              | .ok rows2 =>
                -- err = tx.Commit()
                if f.commit then
                  -- the store discards the unit of work; the deferred Rollback
                  -- then finds the transaction finished
                  { ret := some .commitError, users := db,
                    tx := some (deferred (some .fault) .rolledBack) }
                else
                  { ret := none, users := rows2, tx := some (deferred none .committed) }

/-- The two errors that report a missing account. -/
def TransferError.isAccountNotFound : TransferError → Bool
  | .senderNotFound => true
  | .userNotFound => true
  | _ => false

/-- The error that reports insufficient funds. -/
def TransferError.isInsufficientFunds : TransferError → Bool
  | .lowMoney _ _ => true
  | _ => false

/-- The two seeded accounts of `main`. -/
def seeded : List User :=
  [ { ID := 1, Name := "Arman", Email := "arman@kbtu.kz", Balance := 1000 },
    { ID := 2, Name := "Anara", Email := "anara@kbtu.kz", Balance := 500 } ]

/-! ### Concurrent calls

Several calls of `TransferBalance` run against one store, one store call at a time.
The store is PostgreSQL with the default isolation level (`db.Beginx()` passes no
options): a `SELECT` reads the committed rows and waits for nobody; an `UPDATE` takes
a lock on the rows it writes and keeps it until its transaction ends, and it waits
while another transaction holds such a lock; the written rows become the committed
rows at `Commit`. Store calls do not fail here. -/

end Practice4

namespace Practice5

/-- The predicate `unicode.IsSpace`, on code points. -/
def isSpace (c : Char) : Bool :=
  let n := c.toNat
  n == 0x09 || n == 0x0A || n == 0x0B || n == 0x0C || n == 0x0D || n == 0x20 ||
  n == 0x85 || n == 0xA0 || n == 0x1680 || (0x2000 ≤ n && n ≤ 0x200A) ||
  n == 0x2028 || n == 0x2029 || n == 0x202F || n == 0x205F || n == 0x3000

/-- The function `strings.TrimSpace`: leading and trailing white space removed. -/
def TrimSpace (s : String) : String :=
  ⟨((s.data.dropWhile isSpace).reverse.dropWhile isSpace).reverse⟩

/-- Value of a string of decimal digits, or `none` when a character is not one
(`strconv.ParseUint` in base 10, before its range check). -/
def parseDigits : List Char → Nat → Option Nat
  | [], acc => some acc
  | c :: cs, acc =>
    if c.isDigit then parseDigits cs (acc * 10 + (c.toNat - 48)) else none

/-- The function `strconv.ParseInt(s, 10, bitSize)`; `none` stands for any error
(syntax or range). -/
def ParseInt (s : String) (bitSize : Nat) : Option Int :=
  match s.data with
  | [] => none
  | c :: cs =>
    let neg := c == '-'
    let ds := if c == '+' || c == '-' then cs else c :: cs
    match ds with
    | [] => none
    | _ =>
      match parseDigits ds 0 with
      | none => none
      | some un =>
        let cutoff := 2 ^ (bitSize - 1)
        if !neg && un ≥ cutoff then none
        else if neg && un > cutoff then none
        else some (if neg then -(un : Int) else (un : Int))

/-- The function `strconv.Atoi`, with the 64-bit `int` of the usual targets. -/
def Atoi (s : String) : Option Int := ParseInt s 64

/-- The values `q.Get` returns for the six keys the handler reads; a key that is
absent from the URL reads as the empty string. -/
structure Query where
  category : String
  min_price : String
  max_price : String
  sort : String
  limit : String
  offset : String
  deriving DecidableEq, Repr

/-- One bound argument of the SQL statement (`any` in the source). -/
inductive Arg where
  | text (s : String)
  | int64 (v : Int)
  | int (v : Int)
  deriving DecidableEq, Repr

/-- How far the handler gets: it answers `httpBadRequest(w, msg)`, or it calls
`db.Query(sqlStr, args...)`. -/
inductive Step where
  | badRequest (msg : String)
  | query (sqlStr : String) (args : List Arg)
  deriving DecidableEq, Repr

/-- The text `sqlStr` starts from. -/
def baseSQL : String :=
  "\nSELECT p.id, p.name, c.name AS category, p.price\nFROM products p\nJOIN categories c ON c.id = p.category_id\n"

/-- The function `strings.Join`. -/
def Join (elems : List String) (sep : String) : String :=
  sep.intercalate elems

/-- The six parameters after trimming and parsing (lines 139 to 178 of the handler);
a `none` is a `nil` pointer. -/
structure Params where
  category : String
  minPtr : Option Int
  maxPtr : Option Int
  sort : String
  limitPtr : Option Int
  offsetPtr : Option Int
  deriving DecidableEq, Repr

/-- An optional price bound: absent when the trimmed text is empty, else it must
parse with `strconv.ParseInt(s, 10, 64)`. The outer `none` is the parse error. -/
def parsePrice (str : String) : Option (Option Int) :=
  if str != "" then
    match ParseInt str 64 with
    | none => none
    | some v => some (some v)
  else some none

/-- An optional count (`limit`, `offset`): absent when the trimmed text is empty, else
it must parse with `strconv.Atoi` to a value that is not negative. The outer `none`
is the rejection `err != nil || v < 0`. -/
def parseCount (str : String) : Option (Option Int) :=
  if str != "" then
    match Atoi str with
    | none => none
    | some v => if v < 0 then none else some (some v)
  else some none

/-- Lines 139 to 178 of `handleGetProducts`: the parameters are read, trimmed and
validated in the order `min_price`, `max_price`, `limit`, `offset`; the error is the
message given to `httpBadRequest`. -/
def parseParams (q : Query) : Except String Params :=
  let category := TrimSpace q.category
  let minStr := TrimSpace q.min_price
  let maxStr := TrimSpace q.max_price
  let sort := TrimSpace q.sort
  let limitStr := TrimSpace q.limit
  let offsetStr := TrimSpace q.offset
  match parsePrice minStr with
  | none => .error "invalid min_price"
  | some minPtr =>
    match parsePrice maxStr with
    | none => .error "invalid max_price"
    | some maxPtr =>
      match parseCount limitStr with
      | none => .error "invalid limit"
      | some limitPtr =>
        match parseCount offsetStr with
        | none => .error "invalid offset"
        | some offsetPtr =>
          .ok { category := category, minPtr := minPtr, maxPtr := maxPtr, sort := sort,
                limitPtr := limitPtr, offsetPtr := offsetPtr }

/-- The `switch sort` of the handler: the `ORDER BY` expression, or `none` in the
`default` case. -/
def orderByOf (sort : String) : Option String :=
  if sort = "price_asc" then some "p.price ASC"
  else if sort = "price_desc" then some "p.price DESC"
  else if sort = "" ∨ sort = "id" ∨ sort = "id_asc" then some "p.id ASC"
  else none

/-- The `WHERE` conditions and their arguments (lines 185 to 199). -/
def whereOf (p : Params) : List String × List Arg :=
  let where0 : List String := []
  let args0 : List Arg := []
  let (where1, args1) :=
    if p.category != "" then (where0 ++ ["c.name = ?"], args0 ++ [Arg.text p.category])
    else (where0, args0)
  let (where2, args2) :=
    match p.minPtr with
    | some v => (where1 ++ ["p.price >= ?"], args1 ++ [Arg.int64 v])
    | none => (where1, args1)
  match p.maxPtr with
  | some v => (where2 ++ ["p.price <= ?"], args2 ++ [Arg.int64 v])
  | none => (where2, args2)

/-- Lines 180 to 226 of `handleGetProducts`: the SQL text and the arguments are
assembled from the validated parameters; an unknown `sort` is a bad request. -/
def buildQuery (p : Params) : Step :=
  let sqlStr := baseSQL
  let (where_, args) := whereOf p
  let sqlStr1 :=
    if where_.length > 0 then sqlStr ++ ("WHERE " ++ Join where_ " AND " ++ "\n") else sqlStr
  match orderByOf p.sort with
  | none => .badRequest "invalid sort (use price_asc or price_desc)"
  | some orderBy =>
    let sqlStr2 := sqlStr1 ++ ("ORDER BY " ++ orderBy ++ "\n")
    let (sqlStr3, args1) :=
      match p.limitPtr with
      | some v => (sqlStr2 ++ "LIMIT ?\n", args ++ [Arg.int v])
      | none => (sqlStr2, args)
    let (sqlStr4, args2) :=
      match p.offsetPtr with
      | some v => (sqlStr3 ++ "OFFSET ?\n", args1 ++ [Arg.int v])
      | none => (sqlStr3, args1)
    .query sqlStr4 args2

/-- The part of `handleGetProducts` from the start to the call of `db.Query`: the
bad request it answers, or the text and the arguments it hands to `db.Query`. -/
def handleGetProducts (q : Query) : Step :=
  match parseParams q with
  | .error msg => .badRequest msg
  | .ok p => buildQuery p

/-- Whether `pat` is a prefix of `s`. -/
def hasPrefix : List Char → List Char → Bool
  | [], _ => true
  | _ :: _, [] => false
  | p :: ps, c :: cs => p == c && hasPrefix ps cs

/-- Whether `pat` occurs in `s` (`strings.Contains` on the characters). -/
def containsChars (pat : List Char) : List Char → Bool
  | [] => hasPrefix pat []
  | c :: cs => hasPrefix pat (c :: cs) || containsChars pat cs

/-- Whether the SQL text `s` contains the keyword `kw`. -/
def Contains (s kw : String) : Bool := containsChars kw.data s.data

/-- Number of `?` placeholders in an SQL text. -/
def placeholders (s : String) : Nat := s.data.count '?'

/-- The request `GET /products?offset=5`. -/
def offsetOnly : Query :=
  { category := "", min_price := "", max_price := "", sort := "", limit := "", offset := "5" }

end Practice5

namespace Practice4

/-! ## Frame lemmas for the `users` table -/

theorem selectBalance_nil (x : Int) : selectBalance [] x = none := rfl

theorem selectBalance_cons (u : User) (us : List User) (x : Int) :
    selectBalance (u :: us) x = if u.ID = x then some u.Balance else selectBalance us x := by
  by_cases h : u.ID = x <;> simp [selectBalance, List.find?_cons, h]

theorem updateRows_nil (g : Int → Int) (id : Int) : updateRows g id [] = [] := rfl

theorem updateRows_cons (g : Int → Int) (id : Int) (u : User) (us : List User) :
    updateRows g id (u :: us) =
      (if u.ID = id then { u with Balance := g u.Balance } else u) :: updateRows g id us := by
  by_cases h : u.ID = id <;> simp [updateRows, h]

theorem selectExists_cons (u : User) (us : List User) (x : Int) :
    selectExists (u :: us) x = (u.ID == x || selectExists us x) := by
  simp [selectExists]

theorem selectBalance_updateRows (g : Int → Int) (id x : Int) (rows : List User) :
    selectBalance (updateRows g id rows) x =
      if x = id then (selectBalance rows x).map g else selectBalance rows x := by
  induction rows with
  | nil => simp [selectBalance_nil, updateRows_nil]
  | cons u us ih =>
    rw [updateRows_cons, selectBalance_cons, selectBalance_cons, ih]
    by_cases hx : x = id
    · subst hx
      by_cases hu : u.ID = x <;> simp [hu]
    · by_cases hu : u.ID = id
      · have hix : ¬ id = x := fun h => hx h.symm
        simp [hu, hix, hx]
      · simp [hu, hx]

theorem selectExists_eq_isSome (rows : List User) (id : Int) :
    selectExists rows id = (selectBalance rows id).isSome := by
  induction rows with
  | nil => rfl
  | cons u us ih =>
    rw [selectExists_cons, selectBalance_cons, ih]
    by_cases hu : u.ID = id <;> simp [hu]

theorem updateRows_ids (g : Int → Int) (id : Int) (rows : List User) :
    (updateRows g id rows).map (fun u => u.ID) = rows.map (fun u => u.ID) := by
  induction rows with
  | nil => rfl
  | cons u us ih =>
    rw [updateRows_cons, List.map_cons, List.map_cons, ih]
    by_cases hu : u.ID = id <;> simp [hu]

theorem updateRows_updateRows (g h : Int → Int) (id : Int) (rows : List User) :
    updateRows g id (updateRows h id rows) = updateRows (fun b => g (h b)) id rows := by
  induction rows with
  | nil => rfl
  | cons u us ih =>
    rw [updateRows_cons, updateRows_cons, updateRows_cons, ih]
    by_cases hu : u.ID = id <;> simp [hu]

theorem updateRows_id (g : Int → Int) (hg : ∀ b, g b = b) (id : Int) (rows : List User) :
    updateRows g id rows = rows := by
  induction rows with
  | nil => rfl
  | cons u us ih =>
    rw [updateRows_cons, ih]
    obtain ⟨i, n, e, b⟩ := u
    by_cases hu : i = id <;> simp [hu, hg]

theorem selectBalance_of_mem (rows : List User) (hnd : (rows.map (fun u => u.ID)).Nodup)
    (u : User) (hu : u ∈ rows) : selectBalance rows u.ID = some u.Balance := by
  induction rows with
  | nil => cases hu
  | cons v vs ih =>
    simp only [List.map_cons, List.nodup_cons] at hnd
    rcases List.mem_cons.mp hu with h | h
    · subst h; simp [selectBalance_cons]
    · have hne : ¬ v.ID = u.ID := by
        intro hv
        exact hnd.1 (hv ▸ List.mem_map_of_mem (fun u => u.ID) h)
      rw [selectBalance_cons, if_neg hne]
      exact ih hnd.2 h

/-! ## The exits of `TransferBalance` -/

/-- A call that returns `nil` passed every check, committed, and its committed rows
are the rows after the debit and the credit. -/
theorem TransferBalance_ok {f : Faults} {db : List User} {fromID toID amount : Int}
    (h : (TransferBalance f db fromID toID amount).ret = none) :
    ∃ b, selectBalance db fromID = some b ∧ amount ≤ b ∧ selectExists db toID = true ∧
      (TransferBalance f db fromID toID amount).users =
        updateRows (fun x => x + amount) toID (updateRows (fun x => x - amount) fromID db) ∧
      (TransferBalance f db fromID toID amount).tx = some .committed := by
  unfold TransferBalance txGet txExec returnError at *
  rcases hs : selectBalance db fromID with _ | b
  · cases hb : f.beginx <;> cases hg : f.getSender <;> simp_all
  · by_cases hlt : b < amount
    · cases hb : f.beginx <;> cases hg : f.getSender <;> simp_all
    · cases hb : f.beginx <;> cases hg : f.getSender <;> cases hr : f.getReceiver <;>
        cases hd : f.debit <;> cases hc : f.credit <;> cases hm : f.commit <;>
        cases he : selectExists db toID <;> simp_all [deferred]
      all_goals first | omega | simp [Int.not_lt.mpr hlt]

/-- A call that returns an error committed nothing. -/
theorem TransferBalance_error_users {f : Faults} {db : List User} {fromID toID amount : Int}
    (h : (TransferBalance f db fromID toID amount).ret ≠ none) :
    (TransferBalance f db fromID toID amount).users = db := by
  unfold TransferBalance txGet txExec returnError at *
  rcases hs : selectBalance db fromID with _ | b
  · cases hb : f.beginx <;> cases hg : f.getSender <;> simp_all
  · by_cases hlt : b < amount
    · cases hb : f.beginx <;> cases hg : f.getSender <;> simp_all
    · cases hb : f.beginx <;> cases hg : f.getSender <;> cases hr : f.getReceiver <;>
        cases hd : f.debit <;> cases hc : f.credit <;> cases hm : f.commit <;>
        cases he : selectExists db toID <;> simp_all [deferred]
      all_goals first | omega | simp_all [Int.not_lt.mpr hlt]

/-- Exit "sender not found": the first `Get` fails, by a fault or for want of a row. -/
theorem TransferBalance_sender_missing {f : Faults} {db : List User} {fromID : Int}
    (toID amount : Int) (hb : f.beginx = false)
    (hs : f.getSender = true ∨ selectBalance db fromID = none) :
    TransferBalance f db fromID toID amount =
      { ret := some .senderNotFound, users := db, tx := some .rolledBack } := by
  unfold TransferBalance txGet returnError
  rcases hs with hs | hs <;> simp [hb, hs, deferred, Rollback]
  cases f.getSender <;> simp

/-- Exit "low money". The local `err` is `nil` there, so nothing is rolled back. -/
theorem TransferBalance_low_money {f : Faults} {db : List User} {fromID amount b : Int}
    (toID : Int) (hb : f.beginx = false) (hg : f.getSender = false)
    (hs : selectBalance db fromID = some b) (hlt : b < amount) :
    TransferBalance f db fromID toID amount =
      { ret := some (.lowMoney b amount), users := db, tx := some .opened } := by
  unfold TransferBalance txGet returnError
  simp [hb, hg, hs, hlt, deferred]

/-- Exit "user not found": the second `Get` fails, or it reports that no row exists;
in the second case the local `err` is `nil` and nothing is rolled back. -/
theorem TransferBalance_receiver_missing {f : Faults} {db : List User}
    {fromID toID amount b : Int} (hb : f.beginx = false) (hg : f.getSender = false)
    (hs : selectBalance db fromID = some b) (hle : amount ≤ b)
    (hr : f.getReceiver = true ∨ selectExists db toID = false) :
    TransferBalance f db fromID toID amount =
      { ret := some .userNotFound, users := db,
        tx := some (if f.getReceiver then .rolledBack else .opened) } := by
  unfold TransferBalance txGet returnError
  rcases hr with hr | hr <;> simp [hb, hg, hs, Int.not_lt.mpr hle, hr, deferred, Rollback]
  cases f.getReceiver <;> simp [Rollback]

/-- The exits after both checks passed: the first failing store call decides. -/
theorem TransferBalance_checked {f : Faults} {db : List User} {fromID toID amount b : Int}
    (hb : f.beginx = false) (hg : f.getSender = false) (hr : f.getReceiver = false)
    (hs : selectBalance db fromID = some b) (hle : amount ≤ b)
    (he : selectExists db toID = true) :
    TransferBalance f db fromID toID amount =
      if f.debit then { ret := some .cannotTakeMoney, users := db, tx := some .rolledBack }
      else if f.credit then { ret := some .cannotCredit, users := db, tx := some .rolledBack }
      else if f.commit then { ret := some .commitError, users := db, tx := some .rolledBack }
      else { ret := none,
             users := updateRows (fun x => x + amount) toID
                        (updateRows (fun x => x - amount) fromID db),
             tx := some .committed } := by
  unfold TransferBalance txGet txExec returnError
  cases hd : f.debit <;> cases hc : f.credit <;> cases hm : f.commit <;>
    simp [hb, hg, hr, hs, Int.not_lt.mpr hle, he, deferred, Rollback]

/-! ## The claims about `TransferBalance` -/

/-- Claim C1 (conservation). For two distinct existing accounts `A` and `B` and an
amount `a` with `0 < a ≤ balance(A)`: on a store without faults the transfer succeeds,
and whenever it succeeds the committed balance of `A` is `balance(A) - a`, that of `B`
is `balance(B) + a`, their sum is unchanged, every other account keeps its balance,
and the set of accounts is the same. -/
theorem C1_transfer_conservation (f : Faults) (db : List User) (A B a bA bB : Int)
    (hAB : A ≠ B) (hA : selectBalance db A = some bA) (hB : selectBalance db B = some bB)
    (hpos : 0 < a) (hle : a ≤ bA) :
    (TransferBalance noFaults db A B a).ret = none ∧
    ((TransferBalance f db A B a).ret = none →
      selectBalance (TransferBalance f db A B a).users A = some (bA - a) ∧
      selectBalance (TransferBalance f db A B a).users B = some (bB + a) ∧
      (bA - a) + (bB + a) = bA + bB ∧
      (∀ C, C ≠ A → C ≠ B →
        selectBalance (TransferBalance f db A B a).users C = selectBalance db C) ∧
      (TransferBalance f db A B a).users.map (fun u => u.ID) = db.map (fun u => u.ID)) := by
  have _ := hpos
  have heB : selectExists db B = true := by rw [selectExists_eq_isSome, hB]; rfl
  refine ⟨?_, fun hok => ?_⟩
  · rw [TransferBalance_checked (f := noFaults) rfl rfl rfl hA hle heB]
    rfl
  · obtain ⟨b, _, _, _, hu, _⟩ := TransferBalance_ok hok
    rw [hu]
    refine ⟨?_, ?_, by ring, fun C hCA hCB => ?_, ?_⟩
    · rw [selectBalance_updateRows, if_neg hAB, selectBalance_updateRows, if_pos rfl, hA]
      rfl
    · rw [selectBalance_updateRows, if_pos rfl, selectBalance_updateRows,
        if_neg (Ne.symm hAB), hB]
      rfl
    · rw [selectBalance_updateRows, if_neg hCB, selectBalance_updateRows, if_neg hCA]
    · rw [updateRows_ids, updateRows_ids]

/-- Witness for C1: the transfer of 200 from account 1 to account 2 in `main`. -/
theorem C1_transfer_conservation_witness :
    (TransferBalance noFaults seeded 1 2 200).ret = none ∧
    ((TransferBalance noFaults seeded 1 2 200).ret = none →
      selectBalance (TransferBalance noFaults seeded 1 2 200).users 1 = some (1000 - 200) ∧
      selectBalance (TransferBalance noFaults seeded 1 2 200).users 2 = some (500 + 200) ∧
      ((1000 : Int) - 200) + (500 + 200) = 1000 + 500 ∧
      (∀ C : Int, C ≠ 1 → C ≠ 2 →
        selectBalance (TransferBalance noFaults seeded 1 2 200).users C =
          selectBalance seeded C) ∧
      (TransferBalance noFaults seeded 1 2 200).users.map (fun u => u.ID) =
        seeded.map (fun u => u.ID)) :=
  C1_transfer_conservation noFaults seeded 1 2 200 1000 500 (by decide) (by decide)
    (by decide) (by decide) (by decide)

/-- Counterexample to C2 as stated: with a negative amount the receiver is debited
without any check. From the seeded ledger, `TransferBalance(1, 2, -1000)` succeeds and
commits the balance `-500` for account 2. -/
theorem C2_negative_amount_counterexample :
    (∀ u ∈ seeded, 0 ≤ u.Balance) ∧
    (TransferBalance noFaults seeded 1 2 (-1000)).ret = none ∧
    selectBalance (TransferBalance noFaults seeded 1 2 (-1000)).users 2 = some (-500) ∧
    ¬ (∀ u ∈ (TransferBalance noFaults seeded 1 2 (-1000)).users, 0 ≤ u.Balance) := by
  decide

/-- Claim C2, amended (no negative balances, sequential form). In a ledger with unique
ids whose balances are all `≥ 0`, after any call of `TransferBalance` with an amount
`≥ 0`, whatever the ids and whichever store calls fail, every committed balance is
still `≥ 0`. -/
theorem C2_no_negative_balances (f : Faults) (db : List User) (fromID toID amount : Int)
    (hnd : (db.map (fun u => u.ID)).Nodup) (hnn : ∀ u ∈ db, 0 ≤ u.Balance)
    (ha : 0 ≤ amount) :
    ∀ u ∈ (TransferBalance f db fromID toID amount).users, 0 ≤ u.Balance := by
  by_cases hret : (TransferBalance f db fromID toID amount).ret = none
  · obtain ⟨b, hs, hle, _, hu, _⟩ := TransferBalance_ok hret
    rw [hu]
    intro u hmem
    simp only [updateRows, List.mem_map] at hmem
    obtain ⟨v, ⟨w, hw, rfl⟩, rfl⟩ := hmem
    have hw0 := hnn w hw
    have hwb := selectBalance_of_mem db hnd w hw
    by_cases h1 : w.ID = fromID
    · rw [h1, hs] at hwb
      have hbw : b = w.Balance := Option.some.inj hwb
      by_cases h2 : fromID = toID
      · simp [h1, h2]; omega
      · simp [h1, h2]; omega
    · by_cases h2 : w.ID = toID
      · have h3 : ¬ toID = fromID := fun h => h1 (h2.trans h)
        simp [h2, h3]; omega
      · simp [h1, h2]; exact hw0
  · rw [TransferBalance_error_users hret]
    exact hnn

/-- Witness for C2: the transfer of 200 from account 1 to account 2 in `main`. -/
theorem C2_no_negative_balances_witness :
    (seeded.map (fun u => u.ID)).Nodup ∧ (∀ u ∈ seeded, 0 ≤ u.Balance) ∧ (0 : Int) ≤ 200 ∧
    (∀ u ∈ (TransferBalance noFaults seeded 1 2 200).users, 0 ≤ u.Balance) :=
  ⟨by decide, by decide, by decide,
   C2_no_negative_balances noFaults seeded 1 2 200 (by decide) (by decide) (by decide)⟩

/-- Claim C3 (insufficient funds is a no-op). For an existing sender `A`, any receiver
`B` and any amount `a > balance(A)`, the committed rows after the call are the rows
before it, whichever store calls fail; and when `Beginx` and the read of the sender
do not fail, the call returns the insufficient-funds ("low money") error. -/
theorem C3_insufficient_funds_noop (f : Faults) (db : List User) (A B a bA : Int)
    (hA : selectBalance db A = some bA) (hgt : a > bA) :
    (TransferBalance f db A B a).users = db ∧
    (f.beginx = false → f.getSender = false →
      (TransferBalance f db A B a).ret = some (.lowMoney bA a) ∧
      (TransferBalance f db A B a).ret.any TransferError.isInsufficientFunds = true) := by
  constructor
  · apply TransferBalance_error_users
    intro hok
    obtain ⟨b, hs, hle, _⟩ := TransferBalance_ok hok
    rw [hA] at hs
    have : bA = b := Option.some.inj hs
    omega
  · intro hb hg
    rw [TransferBalance_low_money B hb hg hA hgt]
    exact ⟨rfl, rfl⟩

/-- Witness for C3: the attempt of `main` to send 10000 from account 1. -/
theorem C3_insufficient_funds_noop_witness :
    (TransferBalance noFaults seeded 1 2 10000).users = seeded ∧
    (TransferBalance noFaults seeded 1 2 10000).ret = some (.lowMoney 1000 10000) ∧
    (TransferBalance noFaults seeded 1 2 10000).ret.any
      TransferError.isInsufficientFunds = true :=
  have h := C3_insufficient_funds_noop noFaults seeded 1 2 10000 1000 (by decide) (by decide)
  ⟨h.1, h.2 rfl rfl⟩

/-- Counterexample to C4 as stated: the receiver 99 does not exist, yet the call
returns the insufficient-funds error, because the balance check comes before the
look-up of the receiver. -/
theorem C4_unknown_receiver_counterexample :
    selectExists seeded 99 = false ∧
    (TransferBalance noFaults seeded 1 99 5000).ret = some (.lowMoney 1000 5000) ∧
    (TransferBalance noFaults seeded 1 99 5000).ret.any
      TransferError.isAccountNotFound = false := by
  decide

/-- Claim C4, amended (nonexistent accounts are a no-op). When `Beginx` succeeds: if
`fromID` is unknown the call returns the sender-not-found error; if `fromID` exists,
is read without fault and `amount ≤ balance(fromID)`, and `toID` is unknown, the call
returns the user-not-found error; if `fromID` exists, is read without fault and
`amount > balance(fromID)`, the call returns the insufficient-funds error whether or
not `toID` exists. In all three cases the committed rows are unchanged. -/
theorem C4_nonexistent_accounts_noop (f : Faults) (db : List User)
    (fromID toID amount : Int) (hb : f.beginx = false) :
    (selectBalance db fromID = none →
      (TransferBalance f db fromID toID amount).ret = some .senderNotFound ∧
      (TransferBalance f db fromID toID amount).users = db) ∧
    (∀ b, f.getSender = false → selectBalance db fromID = some b → amount ≤ b →
      selectExists db toID = false →
      (TransferBalance f db fromID toID amount).ret = some .userNotFound ∧
      (TransferBalance f db fromID toID amount).users = db) ∧
    (∀ b, f.getSender = false → selectBalance db fromID = some b → b < amount →
      (TransferBalance f db fromID toID amount).ret = some (.lowMoney b amount) ∧
      (TransferBalance f db fromID toID amount).users = db) := by
  refine ⟨fun hs => ?_, fun b hg hs hle he => ?_, fun b hg hs hlt => ?_⟩
  · rw [TransferBalance_sender_missing toID amount hb (Or.inr hs)]
    exact ⟨rfl, rfl⟩
  · rw [TransferBalance_receiver_missing hb hg hs hle (Or.inr he)]
    exact ⟨rfl, rfl⟩
  · rw [TransferBalance_low_money toID hb hg hs hlt]
    exact ⟨rfl, rfl⟩

/-- Witness for C4: an unknown sender 77, an unknown receiver 99 with enough funds on
the sender, and an unknown receiver 99 with too little. -/
theorem C4_nonexistent_accounts_noop_witness :
    ((TransferBalance noFaults seeded 77 2 200).ret = some .senderNotFound ∧
      (TransferBalance noFaults seeded 77 2 200).users = seeded) ∧
    ((TransferBalance noFaults seeded 1 99 200).ret = some .userNotFound ∧
      (TransferBalance noFaults seeded 1 99 200).users = seeded) ∧
    ((TransferBalance noFaults seeded 1 99 5000).ret = some (.lowMoney 1000 5000) ∧
      (TransferBalance noFaults seeded 1 99 5000).users = seeded) :=
  ⟨(C4_nonexistent_accounts_noop noFaults seeded 77 2 200 rfl).1 (by decide),
   (C4_nonexistent_accounts_noop noFaults seeded 1 99 200 rfl).2.1 1000 rfl (by decide)
      (by decide) (by decide),
   (C4_nonexistent_accounts_noop noFaults seeded 1 99 5000 rfl).2.2 1000 rfl (by decide)
      (by decide)⟩

/-- Counterexample to C5 as stated: amounts `0` and `-100` are not rejected; both
calls return `nil`, and the second one moves 100 from the receiver to the sender. -/
theorem C5_nonpositive_amount_counterexample :
    (TransferBalance noFaults seeded 1 2 0).ret = none ∧
    (TransferBalance noFaults seeded 1 2 (-100)).ret = none ∧
    (TransferBalance noFaults seeded 1 2 (-100)).users.map (fun u => u.Balance) =
      [1100, 400] ∧
    (TransferBalance noFaults seeded 1 2 (-100)).users ≠ seeded := by
  decide

/-- Claim C5, amended. `TransferBalance` has no validation step, and an amount `≤ 0`
is handled like any other amount: a call that returns an error has changed no
balance; a call with amount `0` changes no balance whatever it returns; and on a
store without faults, with an existing sender whose balance is at least the amount
and an existing receiver, the call returns success and commits the sender's balance
minus the amount and the receiver's balance plus the amount. -/
theorem C5_nonpositive_amount_not_rejected (f : Faults) (db : List User)
    (fromID toID amount : Int) (hle : amount ≤ 0) :
    ((TransferBalance f db fromID toID amount).ret ≠ none →
      (TransferBalance f db fromID toID amount).users = db) ∧
    (amount = 0 → (TransferBalance f db fromID toID amount).users = db) ∧
    (∀ b, selectBalance db fromID = some b → amount ≤ b → selectExists db toID = true →
      TransferBalance noFaults db fromID toID amount =
        { ret := none,
          users := updateRows (fun x => x + amount) toID
                     (updateRows (fun x => x - amount) fromID db),
          tx := some .committed }) := by
  have _ := hle
  refine ⟨TransferBalance_error_users, fun h0 => ?_, fun b hs hb he => ?_⟩
  · by_cases hret : (TransferBalance f db fromID toID amount).ret = none
    · obtain ⟨b, _, _, _, hu, _⟩ := TransferBalance_ok hret
      rw [hu, h0, updateRows_id _ (fun b => by simp), updateRows_id _ (fun b => by simp)]
    · exact TransferBalance_error_users hret
  · rw [TransferBalance_checked (f := noFaults) rfl rfl rfl hs hb he]
    rfl

/-- Witness for C5: amount `0` between the two seeded accounts. -/
theorem C5_nonpositive_amount_not_rejected_witness :
    (TransferBalance noFaults seeded 1 2 0).users = seeded ∧
    TransferBalance noFaults seeded 1 2 0 =
      { ret := none,
        users := updateRows (fun x => x + 0) 2 (updateRows (fun x => x - 0) 1 seeded),
        tx := some .committed } :=
  have h := C5_nonpositive_amount_not_rejected noFaults seeded 1 2 0 (by decide)
  ⟨h.2.1 rfl, h.2.2 1000 (by decide) (by decide) (by decide)⟩

/-- Counterexample to C6 as stated: the transfer of 200 from account 1 to itself
returns `nil`, that is, it reports success. -/
theorem C6_self_transfer_counterexample :
    (TransferBalance noFaults seeded 1 1 200).ret = none ∧
    (TransferBalance noFaults seeded 1 1 200).tx = some .committed := by
  decide

/-- Claim C6, amended. `TransferBalance(x, x, amount)` changes no balance, for every
ledger, id, amount and whichever store calls fail; it is not rejected: on a store
without faults, when `x` exists and `amount ≤ balance(x)`, it commits and returns
success. -/
theorem C6_self_transfer_no_change (f : Faults) (db : List User) (x amount : Int) :
    (TransferBalance f db x x amount).users = db ∧
    (∀ b, selectBalance db x = some b → amount ≤ b →
      TransferBalance noFaults db x x amount =
        { ret := none, users := db, tx := some .committed }) := by
  have hsame : updateRows (fun b => b + amount) x (updateRows (fun b => b - amount) x db)
      = db := by
    rw [updateRows_updateRows, updateRows_id _ (fun b => by simp)]
  refine ⟨?_, fun b hs hb => ?_⟩
  · by_cases hret : (TransferBalance f db x x amount).ret = none
    · obtain ⟨b, _, _, _, hu, _⟩ := TransferBalance_ok hret
      rw [hu, hsame]
    · exact TransferBalance_error_users hret
  · have he : selectExists db x = true := by rw [selectExists_eq_isSome, hs]; rfl
    rw [TransferBalance_checked (f := noFaults) rfl rfl rfl hs hb he, hsame]
    rfl

/-- Witness for C6: account 1 of the seeded ledger sends 200 to itself. -/
theorem C6_self_transfer_no_change_witness :
    (TransferBalance noFaults seeded 1 1 200).users = seeded ∧
    TransferBalance noFaults seeded 1 1 200 =
      { ret := none, users := seeded, tx := some .committed } :=
  have h := C6_self_transfer_no_change noFaults seeded 1 200
  ⟨h.1, h.2 1000 (by decide) (by decide)⟩

/-- Claim C7 (no partial application). If the debit `UPDATE`, the credit `UPDATE` or
the commit fails, the call returns an error and the committed rows are the rows before
the call, for every ledger and every arguments. For a valid transfer (both accounts
exist, the sender has the funds, the store calls before the debit succeed) the error
is the one of the first failing step and the transaction ends rolled back. -/
theorem C7_no_partial_application (f : Faults) (db : List User) (fromID toID amount : Int)
    (hfail : f.debit = true ∨ f.credit = true ∨ f.commit = true) :
    ((TransferBalance f db fromID toID amount).ret ≠ none ∧
      (TransferBalance f db fromID toID amount).users = db) ∧
    (∀ b, f.beginx = false → f.getSender = false → f.getReceiver = false →
      selectBalance db fromID = some b → amount ≤ b → selectExists db toID = true →
      (TransferBalance f db fromID toID amount).ret =
        some (if f.debit then .cannotTakeMoney
              else if f.credit then .cannotCredit else .commitError) ∧
      (TransferBalance f db fromID toID amount).tx = some .rolledBack) := by
  have hne : (TransferBalance f db fromID toID amount).ret ≠ none := by
    intro hok
    obtain ⟨b, hs, hle, he, _, _⟩ := TransferBalance_ok hok
    by_cases hb : f.beginx = true
    · unfold TransferBalance at hok
      simp [hb] at hok
    · by_cases hg : f.getSender = true
      · rw [TransferBalance_sender_missing toID amount (by simpa using hb) (Or.inl hg)] at hok
        cases hok
      · by_cases hr : f.getReceiver = true
        · rw [TransferBalance_receiver_missing (by simpa using hb) (by simpa using hg) hs hle
            (Or.inl hr)] at hok
          cases hok
        · rw [TransferBalance_checked (by simpa using hb) (by simpa using hg)
            (by simpa using hr) hs hle he] at hok
          rcases hfail with h | h | h
          · simp [h] at hok
          · cases hd : f.debit <;> simp [h, hd] at hok
          · cases hd : f.debit <;> cases hc : f.credit <;> simp [h, hd, hc] at hok
  refine ⟨⟨hne, TransferBalance_error_users hne⟩, fun b hb hg hr hs hle he => ?_⟩
  rw [TransferBalance_checked hb hg hr hs hle he]
  rcases hfail with h | h | h
  · simp [h]
  · cases hd : f.debit <;> simp [h]
  · cases hd : f.debit <;> cases hc : f.credit <;> simp [h]

/-- Witness for C7: in the transfer of `main`, the credit `UPDATE` fails after the
debit went through; nothing of the debit is committed. -/
theorem C7_no_partial_application_witness :
    ((TransferBalance { noFaults with credit := true } seeded 1 2 200).ret ≠ none ∧
      (TransferBalance { noFaults with credit := true } seeded 1 2 200).users = seeded) ∧
    (TransferBalance { noFaults with credit := true } seeded 1 2 200).ret =
      some .cannotCredit ∧
    (TransferBalance { noFaults with credit := true } seeded 1 2 200).tx =
      some .rolledBack :=
  have h := C7_no_partial_application { noFaults with credit := true } seeded 1 2 200
    (Or.inr (Or.inl rfl))
  ⟨h.1, h.2 1000 rfl rfl rfl (by decide) (by decide) (by decide)⟩

/-- Commit is performed exactly on the path that returns `nil`. -/
theorem TransferBalance_committed_iff (f : Faults) (db : List User)
    (fromID toID amount : Int) :
    (TransferBalance f db fromID toID amount).tx = some .committed ↔
      (TransferBalance f db fromID toID amount).ret = none := by
  refine ⟨fun h => ?_, fun h => (TransferBalance_ok h).choose_spec.2.2.2.2⟩
  unfold TransferBalance txGet txExec returnError at *
  rcases hs : selectBalance db fromID with _ | b
  · cases hb : f.beginx <;> cases hg : f.getSender <;> simp_all [deferred, Rollback]
  · by_cases hlt : b < amount
    · cases hb : f.beginx <;> cases hg : f.getSender <;> simp_all [deferred, Rollback]
    · cases hb : f.beginx <;> cases hg : f.getSender <;> cases hr : f.getReceiver <;>
        cases hd : f.debit <;> cases hc : f.credit <;> cases hm : f.commit <;>
        cases he : selectExists db toID <;> simp_all [deferred, Rollback]
      all_goals first | omega | simp_all [Int.not_lt.mpr hlt]

/-- Claim C8 fails on the code: two exits return an error and leave the transaction
open. In the call of `main` that asks for more than the sender has, and in a call to an
unknown receiver, the error is built in the `return` statement, the local `err` read by
the deferred closure is still `nil`, and `tx.Rollback()` is not called. -/
theorem C8_error_exit_leaves_transaction_open :
    TransferBalance noFaults seeded 1 2 10000 =
      { ret := some (.lowMoney 1000 10000), users := seeded, tx := some .opened } ∧
    TransferBalance noFaults seeded 1 99 200 =
      { ret := some .userNotFound, users := seeded, tx := some .opened } := by
  decide

end Practice4

namespace Practice5

/-! ## The query of `handleGetProducts` -/

/-- Every query built from validated parameters has as many `?` placeholders as
bound arguments. -/
theorem buildQuery_placeholders (p : Params) (sqlStr : String) (args : List Arg)
    (h : buildQuery p = .query sqlStr args) :
    placeholders sqlStr = args.length := by
  obtain ⟨category, minPtr, maxPtr, sort, limitPtr, offsetPtr⟩ := p
  unfold buildQuery orderByOf whereOf at h
  by_cases hc : category = "" <;> by_cases h1 : sort = "price_asc" <;>
    by_cases h2 : sort = "price_desc" <;>
    by_cases h3 : sort = "" ∨ sort = "id" ∨ sort = "id_asc" <;>
    cases minPtr <;> cases maxPtr <;> cases limitPtr <;> cases offsetPtr <;>
    simp [hc, h1, h2, h3] at h <;>
    obtain ⟨rfl, rfl⟩ := h <;>
    first
      | decide
      | (simp only [List.length_cons, List.length_nil]; decide)

/-- The `LIMIT` clause is in the text exactly when `limit` was given, and the `OFFSET`
clause exactly when `offset` was given: the two are appended independently. -/
theorem buildQuery_clauses (p : Params) (sqlStr : String) (args : List Arg)
    (h : buildQuery p = .query sqlStr args) :
    Contains sqlStr "LIMIT" = p.limitPtr.isSome ∧
    Contains sqlStr "OFFSET" = p.offsetPtr.isSome := by
  obtain ⟨category, minPtr, maxPtr, sort, limitPtr, offsetPtr⟩ := p
  unfold buildQuery orderByOf whereOf at h
  by_cases hc : category = "" <;> by_cases h1 : sort = "price_asc" <;>
    by_cases h2 : sort = "price_desc" <;>
    by_cases h3 : sort = "" ∨ sort = "id" ∨ sort = "id_asc" <;>
    cases minPtr <;> cases maxPtr <;> cases limitPtr <;> cases offsetPtr <;>
    simp [hc, h1, h2, h3] at h <;>
    obtain ⟨rfl, rfl⟩ := h <;>
    first
      | decide
      | (simp only [Option.isSome]; decide)

/-- Every query the handler sends has as many `?` placeholders as bound arguments. -/
theorem handleGetProducts_placeholders (q : Query) (sqlStr : String) (args : List Arg)
    (h : handleGetProducts q = .query sqlStr args) :
    placeholders sqlStr = args.length := by
  unfold handleGetProducts at h
  split at h
  · cases h
  · exact buildQuery_placeholders _ _ _ h

/-- Claim C10 fails on the code: the request `GET /products?offset=5` passes
validation, and the text handed to `db.Query` ends in an `OFFSET ?` clause with no
`LIMIT` clause before it. The count of placeholders (one) does equal the count of
arguments (one). -/
theorem C10_offset_without_limit :
    parseParams offsetOnly =
      .ok { category := "", minPtr := none, maxPtr := none, sort := "",
            limitPtr := none, offsetPtr := some 5 } ∧
    handleGetProducts offsetOnly =
      .query (baseSQL ++ "ORDER BY p.id ASC\nOFFSET ?\n") [Arg.int 5] ∧
    Contains (baseSQL ++ "ORDER BY p.id ASC\nOFFSET ?\n") "OFFSET" = true ∧
    Contains (baseSQL ++ "ORDER BY p.id ASC\nOFFSET ?\n") "LIMIT" = false ∧
    placeholders (baseSQL ++ "ORDER BY p.id ASC\nOFFSET ?\n") = [Arg.int 5].length := by
  refine ⟨rfl, ?_, ?_, ?_, ?_⟩ <;> decide

end Practice5

namespace Practice4

/-! ## Concurrent calls -/

end Practice4
